import Mathlib

/-!
# Verification of the chat-backend request pipeline (src/server.js)

A shallow embedding of the request-orchestration pipeline of the backend
gateway: the conversation store, the context retriever, the prompt builder,
the downstream-model client interface, and the HTTP handlers for
chat, generate, history and delete.

Network effects (the retrieval call and the model call) are represented by
outcome parameters: each handler takes the outcome the network would have
produced and computes the response and the new store deterministically,
exactly as the JavaScript handler body does.
-/

set_option autoImplicit false
set_option maxRecDepth 100000

namespace Backend

/-- One recorded exchange: the object `{user, assistant}` pushed at
src/server.js lines 241-244. -/
structure Exchange where
  user : String
  assistant : String
deriving Repr, DecidableEq

/-- A conversation history: the array stored per session. -/
abbrev History := List Exchange

/-- The in-memory `conversationStore` Map, modelled as an association list
(first binding for a key wins; `storeSet` removes earlier bindings). -/
abbrev Store := List (String × History)

/-- `conversationStore.get(key)`. -/
def storeGet : Store → String → Option History
  | [], _ => none
  | (k, h) :: rest, key => if k = key then some h else storeGet rest key

/-- `conversationStore.set(key, value)`: overwrite or add. -/
def storeSet (s : Store) (key : String) (h : History) : Store :=
  (key, h) :: s.filter (fun p => decide (p.1 ≠ key))

/-- `conversationStore.delete(key)`: remove the binding; absent keys are
no-ops (a JS Map delete never throws). -/
def storeDelete (s : Store) (key : String) : Store :=
  s.filter (fun p => decide (p.1 ≠ key))

/-- JavaScript string whitespace for `.trim()`: space, tab, newline,
carriage return, vertical tab, form feed. -/
def isJsWhitespace (c : Char) : Bool :=
  c = ' ' || c = '\t' || c = '\n' || c = '\r' || c = '\x0b' || c = '\x0c'

/-- The JavaScript `String.prototype.trim()`: strip leading and trailing
whitespace.  Defined over the character list so it is kernel-computable. -/
def jsTrim (s : String) : String :=
  ⟨((s.data.dropWhile isJsWhitespace).reverse.dropWhile isJsWhitespace).reverse⟩

/-- The `SYSTEM_PROMPT` template literal, src/server.js lines 96-116. -/
def SYSTEM_PROMPT : String :=
  "\nYou are a legal AI assistant specialized ONLY in Indian Law.\n\nJurisdiction Rules:\n- Use ONLY Indian law (IPC, CrPC, CPC, Constitution of India, Indian Acts).\n- Do NOT mention or rely on US law, UK law, or any foreign law.\n\nKnowledge Rules:\n- Answer ONLY using the provided context.\n- If the answer is not present in the context, say:\n\"I don\x27t have enough information under Indian law to answer this question.\"\n\nFormatting Rules:\n- Answer STRICTLY in bullet points.\n- Maximum 5 bullet points.\n- One complete idea per bullet.\n- No paragraphs, no extra text.\n\nDo NOT guess.\nDo NOT generalize.\n"

/-- `buildRagPrompt(context, question)`, src/server.js lines 118-132:
the single template of the program, filled and trimmed. -/
def buildRagPrompt (context question : String) : String :=
  jsTrim ("\nSYSTEM:\n" ++ SYSTEM_PROMPT ++ "\n\nUSER:\nContext:\n" ++ context ++
    "\n\nQuestion:\n" ++ question ++ "\n\nAnswer:\n")

/-- The canned refusal text returned when no usable context is retrieved,
src/server.js lines 215-217. -/
def refusalText : String :=
  "I don\x27t have enough information under Indian law to answer this question."

/-- Outcome of the network interaction inside `retrieveContext`:
either the retrieval service answered 2xx with a payload whose `context`
field is the given optional string (`none` = absent or falsy), or the
call failed (network error, non-success status, or a payload on which
reading `.context` throws). -/
inductive RetrievalOutcome where
  | success (context : Option String)
  | failure
deriving Repr, DecidableEq

/-- `retrieveContext(query)`, src/server.js lines 155-168.  Returns the
context string together with a flag recording whether a network request
was issued.  `ragUrl = none` models an unset `RAG_SERVICE_URL`; the code
guard `!RAG_SERVICE_URL` is also true for an empty-string URL. -/
def retrieveContext (ragUrl : Option String) (outcome : RetrievalOutcome) :
    String × Bool :=
  match ragUrl with
  | none => ("", false)
  | some u =>
    if u = "" then ("", false)
    else
      match outcome with
      | .success ctx => (ctx.getD "", true)
      | .failure => ("", true)

/-- Outcome of `callModelServer`: either the downstream answered 2xx with
`{response, model_name?}`, or axios threw (non-success status, connection
failure, or the 60-second timeout), src/server.js lines 137-150. -/
inductive ModelOutcome where
  | success (response : String) (modelName : Option String)
  | failure (message : String)
deriving Repr, DecidableEq

/-- Whether the model call succeeded. -/
def ModelOutcome.isSuccess : ModelOutcome → Bool
  | .success _ _ => true
  | .failure _ => false

/-- The response text of a successful model call (unused on failure). -/
def ModelOutcome.respText : ModelOutcome → String
  | .success r _ => r
  | .failure _ => ""

/-- Generation options a client may place in the request body
(`options: {maxLength, temperature, topP}`). -/
structure GenOptions where
  maxLength : Option Nat
  temperature : Option ℚ
  topP : Option ℚ
deriving Repr, DecidableEq

/-- The body sent to the model service: `{message, max_length, temperature,
top_p, repetition_penalty?, conversation_history?}`. -/
structure ModelRequest where
  message : String
  max_length : Nat
  temperature : ℚ
  top_p : ℚ
  repetition_penalty : Option ℚ
  conversation_history : Option History
deriving Repr, DecidableEq

/-- The body of `POST /api/chat`. -/
structure ChatRequest where
  message : Option String
  sessionId : Option String
  options : Option GenOptions
deriving Repr, DecidableEq

/-- Everything observable about one handling of `POST /api/chat`:
HTTP status, the body fields the handler may set, the model request it
issued (if any), and the conversation store after the request. -/
structure ChatResult where
  status : Nat
  response : Option String
  error : Option String
  sessionId : Option String
  modelName : Option String
  modelCalled : Bool
  modelRequest : Option ModelRequest
  store : Store
deriving Repr, DecidableEq

/-- Server configuration relevant to the pipeline: the retrieval-service
base URL (`RAG_SERVICE_URL`), possibly unset. -/
structure Env where
  ragUrl : Option String
deriving Repr, DecidableEq

/-- Session-key resolution, src/server.js line 207:
`const session = sessionId || session_ + Date.now()` (an empty-string
`sessionId` is falsy and is replaced too). -/
def resolveSession (sessionId : Option String) (now : Nat) : String :=
  match sessionId with
  | some s => if s = "" then "session_" ++ toString now else s
  | none => "session_" ++ toString now

/-- The history-append-and-truncate step, src/server.js lines 241-246:
push the new exchange, then if the length exceeds 10 keep the last 10
(`history.slice(-10)`). -/
def appendExchange (h : History) (e : Exchange) : History :=
  let h2 := h ++ [e]
  if h2.length > 10 then h2.drop (h2.length - 10) else h2

/-- The `POST /api/chat` handler body, src/server.js lines 199-262.
`retrievalOutcome` and `modelOutcome` stand for what the two awaited
network calls would produce; `now` is `Date.now()`. -/
def handleChat (env : Env) (store : Store) (req : ChatRequest)
    (retrievalOutcome : RetrievalOutcome) (modelOutcome : ModelOutcome)
    (now : Nat) : ChatResult :=
  match req.message with
  | none =>
      { status := 400, response := none, error := some "Message is required",
        sessionId := none, modelName := none, modelCalled := false,
        modelRequest := none, store := store }
  | some msg =>
    if jsTrim msg = "" then
      { status := 400, response := none, error := some "Message is required",
        sessionId := none, modelName := none, modelCalled := false,
        modelRequest := none, store := store }
    else
      let session := resolveSession req.sessionId now
      let history := (storeGet store session).getD []
      let context := (retrieveContext env.ragUrl retrievalOutcome).1
      if jsTrim context = "" then
        { status := 200, response := some refusalText, error := none,
          sessionId := some session, modelName := none, modelCalled := false,
          modelRequest := none, store := store }
      else
        let engineeredPrompt := buildRagPrompt context (jsTrim msg)
        let modelRequest : ModelRequest :=
          { message := engineeredPrompt, max_length := 400,
            temperature := 0.2, top_p := 0.9,
            repetition_penalty := some 1.1,
            conversation_history := some history }
        match modelOutcome with
        | .failure _ =>
            { status := 500, response := none,
              error := some "Failed to generate response",
              sessionId := none, modelName := none, modelCalled := true,
              modelRequest := some modelRequest, store := store }
        | .success resp mname =>
            let newHistory := appendExchange history ⟨jsTrim msg, resp⟩
            { status := 200, response := some resp, error := none,
              sessionId := some session, modelName := mname,
              modelCalled := true, modelRequest := some modelRequest,
              store := storeSet store session newHistory }

/-- The body of `POST /api/generate`. -/
structure GenRequest where
  prompt : Option String
  options : Option GenOptions
deriving Repr, DecidableEq

/-- Observable result of one handling of `POST /api/generate`. -/
structure GenResult where
  status : Nat
  response : Option String
  error : Option String
  modelCalled : Bool
  modelRequest : Option ModelRequest
deriving Repr, DecidableEq

/-- The `POST /api/generate` handler body, src/server.js lines 267-294. -/
def handleGenerate (req : GenRequest) (modelOutcome : ModelOutcome) :
    GenResult :=
  match req.prompt with
  | none =>
      { status := 400, response := none, error := some "Prompt is required",
        modelCalled := false, modelRequest := none }
  | some p =>
    if jsTrim p = "" then
      { status := 400, response := none, error := some "Prompt is required",
        modelCalled := false, modelRequest := none }
    else
      let modelRequest : ModelRequest :=
        { message := jsTrim p, max_length := 512, temperature := 0.7,
          top_p := 0.9, repetition_penalty := none,
          conversation_history := none }
      match modelOutcome with
      | .failure _ =>
          { status := 500, response := none,
            error := some "Failed to generate response",
            modelCalled := true, modelRequest := some modelRequest }
      | .success resp _ =>
          { status := 200, response := some resp, error := none,
            modelCalled := true, modelRequest := some modelRequest }

/-- The `GET /api/chat/:sessionId` handler, src/server.js lines 299-302:
responds 200 with `{sessionId, history}` where absent sessions give `[]`. -/
def handleGetHistory (store : Store) (sessionId : String) :
    String × History :=
  (sessionId, (storeGet store sessionId).getD [])

/-- The `DELETE /api/chat/:sessionId` handler, src/server.js lines 304-307:
deletes the entry and responds 200 with the JSON body
`{message: "Conversation cleared"}`, modelled as a key-value list. -/
def handleDelete (store : Store) (sessionId : String) :
    Store × List (String × String) :=
  (storeDelete store sessionId, [("message", "Conversation cleared")])

/-- Input of one chat turn when exercising the pipeline repeatedly:
the client message together with the outcomes of the two network calls
for that turn. -/
structure TurnIO where
  message : String
  retrieval : RetrievalOutcome
  model : ModelOutcome
  now : Nat
deriving Repr, DecidableEq

/-- Run a sequence of chat turns against the same session id,
threading the store through `handleChat`. -/
def runTurns (env : Env) (store : Store) (sid : String) :
    List TurnIO → Store
  | [] => store
  | t :: ts =>
      runTurns env
        (handleChat env store
          { message := some t.message, sessionId := some sid, options := none }
          t.retrieval t.model t.now).store
        sid ts

/-- A turn is accepted when the message is non-blank, retrieval produced
usable (non-whitespace) context, and the model call succeeded. -/
def acceptedTurn (env : Env) (t : TurnIO) : Bool :=
  jsTrim t.message ≠ "" ∧
    jsTrim (retrieveContext env.ragUrl t.retrieval).1 ≠ "" ∧
    t.model.isSuccess

/-- The exchange a turn records when accepted. -/
def turnExchange (t : TurnIO) : Exchange :=
  ⟨jsTrim t.message, t.model.respText⟩

/-- The last ten elements of a list (`slice(-10)` applied unconditionally). -/
def lastTen (l : History) : History :=
  l.drop (l.length - 10)

/-- Whether `needle` occurs as a contiguous run inside `haystack`. -/
def listContains (needle : List Char) : List Char → Bool
  | [] => needle.isPrefixOf []
  | c :: rest => needle.isPrefixOf (c :: rest) || listContains needle rest

/-- The use-only-context instruction of the strict template. -/
def strictInstruction : String :=
  "- Answer ONLY using the provided context."

/- ======================  Lemmas and theorems  ====================== -/

theorem storeGet_storeSet_self (s : Store) (k : String) (h : History) :
    storeGet (storeSet s k h) k = some h := by
  simp [storeGet, storeSet]

theorem storeGet_storeDelete_self (s : Store) (k : String) :
    storeGet (storeDelete s k) k = none := by
  induction s with
  | nil => rfl
  | cons p rest ih =>
      obtain ⟨a, b⟩ := p
      by_cases hak : a = k
      · simpa [storeDelete, List.filter, hak] using ih
      · simpa [storeDelete, List.filter, storeGet, hak] using ih

theorem storeDelete_absent (s : Store) (k : String)
    (h : storeGet s k = none) : storeDelete s k = s := by
  induction s with
  | nil => rfl
  | cons p rest ih =>
      obtain ⟨a, b⟩ := p
      by_cases hak : a = k
      · simp [storeGet, hak] at h
      · simp [storeGet, hak] at h
        simp [storeDelete, List.filter, hak] at *
        exact ih h

theorem lastTen_length (l : History) :
    (lastTen l).length = min l.length 10 := by
  simp only [lastTen, List.length_drop]
  omega

theorem appendExchange_eq (h : History) (e : Exchange) :
    appendExchange h e =
      if (h ++ [e]).length > 10
      then (h ++ [e]).drop ((h ++ [e]).length - 10)
      else h ++ [e] := rfl

theorem appendExchange_lastTen (l : History) (e : Exchange) :
    appendExchange (lastTen l) e = lastTen (l ++ [e]) := by
  rw [appendExchange_eq]
  unfold lastTen
  rcases Nat.lt_or_ge l.length 10 with hlt | hge
  · have h0 : l.length - 10 = 0 := by omega
    rw [h0, List.drop_zero]
    rw [if_neg (by simp only [List.length_append, List.length_cons,
      List.length_nil]; omega)]
    have h1 : (l ++ [e]).length - 10 = 0 := by
      simp only [List.length_append, List.length_cons, List.length_nil]; omega
    rw [h1, List.drop_zero]
  · have hlen : (l.drop (l.length - 10)).length = 10 := by
      rw [List.length_drop]; omega
    rw [if_pos (by simp only [List.length_append, List.length_cons,
      List.length_nil, hlen]; omega)]
    have hdrop1 : (l.drop (l.length - 10) ++ [e]).length - 10 = 1 := by
      simp only [List.length_append, List.length_cons, List.length_nil, hlen]
    rw [hdrop1]
    rw [List.drop_append_of_le_length (by omega : 1 ≤ (l.drop (l.length - 10)).length)]
    rw [List.drop_drop]
    have h2 : (l ++ [e]).length - 10 = 1 + (l.length - 10) := by
      simp only [List.length_append, List.length_cons, List.length_nil]; omega
    rw [h2, List.drop_append_of_le_length (by omega : 1 + (l.length - 10) ≤ l.length)]
    have h4 : l.length - 10 + 1 = 1 + (l.length - 10) := by omega
    rw [h4]

/-- C4: `retrieveContext` is a total function into strings: with no
retrieval-service URL configured (unset or empty, both falsy) it returns
empty text without issuing a network call; with a URL configured it issues
the call and returns the payload's `context` field defaulting to empty on
success, and empty text on any failure — no exception ever reaches the
caller (the embedding is a total Lean function). -/
theorem retrieveContext_total (url : Option String) (o : RetrievalOutcome) :
    (url = none ∨ url = some "" → retrieveContext url o = ("", false)) ∧
    (∀ u, url = some u → u ≠ "" →
      (∀ c, o = .success c → retrieveContext url o = (c.getD "", true)) ∧
      (o = .failure → retrieveContext url o = ("", true))) := by
  constructor
  · rintro (rfl | rfl)
    · rfl
    · simp [retrieveContext]
  · rintro u rfl hu
    constructor
    · rintro c rfl
      simp [retrieveContext, hu]
    · rintro rfl
      simp [retrieveContext, hu]

theorem retrieveContext_total_witness :
    retrieveContext (some "http://rag") (.success (some "ctx")) = ("ctx", true) :=
  ((retrieveContext_total (some "http://rag")
      (.success (some "ctx"))).2 "http://rag" rfl (by decide)).1 (some "ctx") rfl

/-- C8 counterexample: the DELETE handler's response body at session key
"s1" has no `sessionId` field at all — it is exactly
`{message: "Conversation cleared"}` — so the claim that the body contains
the sessionId is false. -/
theorem delete_body_missing_sessionId :
    ((handleDelete [("s1", [])] "s1").2.lookup "sessionId" = none) ∧
    ((handleDelete [("s1", [])] "s1").2.lookup "message"
        = some "Conversation cleared") := by
  decide

/-- C8 (amended): the response body of `DELETE /api/chat/:sessionId`
contains a `message` field ("Conversation cleared") and nothing else; in
particular it does not contain the sessionId. -/
theorem delete_body_message_only (store : Store) (sid : String) :
    (handleDelete store sid).2 = [("message", "Conversation cleared")] ∧
    (handleDelete store sid).2.lookup "sessionId" = none := by
  constructor <;> rfl

/-- C9: deleting a session and then reading it yields the empty history,
and delete is idempotent: deleting twice gives the same store and the same
response body as deleting once, and deleting an absent session is not an
error — it returns the same 200 body and leaves the store unchanged. -/
theorem delete_then_get_empty (store : Store) (sid : String) :
    (handleGetHistory (handleDelete store sid).1 sid).2 = [] ∧
    (handleDelete (handleDelete store sid).1 sid).1 = (handleDelete store sid).1 ∧
    (handleDelete (handleDelete store sid).1 sid).2 = (handleDelete store sid).2 ∧
    (storeGet store sid = none →
      handleDelete store sid = (store, [("message", "Conversation cleared")])) := by
  refine ⟨?_, ?_, rfl, ?_⟩
  · simp [handleGetHistory, handleDelete, storeGet_storeDelete_self]
  · show storeDelete (storeDelete store sid) sid = storeDelete store sid
    exact storeDelete_absent _ _ (storeGet_storeDelete_self store sid)
  · intro habs
    simp [handleDelete, storeDelete_absent store sid habs]

theorem handleChat_store_accepted (env : Env) (store : Store) (sid : String)
    (t : TurnIO) (hsid : sid ≠ "") (hacc : acceptedTurn env t = true) :
    (handleChat env store ⟨some t.message, some sid, none⟩
        t.retrieval t.model t.now).store
      = storeSet store sid
          (appendExchange ((storeGet store sid).getD []) (turnExchange t)) := by
  simp only [acceptedTurn, decide_eq_true_eq] at hacc
  obtain ⟨h1, h2, h3⟩ := hacc
  cases hmo : t.model with
  | failure emsg => rw [hmo] at h3; simp [ModelOutcome.isSuccess] at h3
  | success resp mn =>
      simp [handleChat, h1, h2, resolveSession, hsid, turnExchange, hmo,
        ModelOutcome.respText]

theorem runTurns_history (env : Env) (sid : String) (hsid : sid ≠ "") :
    ∀ (turns : List TurnIO) (store : Store) (done : List Exchange),
      (∀ t ∈ turns, acceptedTurn env t = true) →
      (storeGet store sid).getD [] = lastTen done →
      (storeGet (runTurns env store sid turns) sid).getD []
        = lastTen (done ++ turns.map turnExchange) := by
  intro turns
  induction turns with
  | nil =>
      intro store done _ hinv
      simpa [runTurns] using hinv
  | cons t ts ih =>
      intro store done hacc hinv
      have ht : acceptedTurn env t = true := hacc t (by simp)
      have hts : ∀ x ∈ ts, acceptedTurn env x = true :=
        fun x hx => hacc x (by simp [hx])
      have hstep :
          (storeGet (handleChat env store ⟨some t.message, some sid, none⟩
              t.retrieval t.model t.now).store sid).getD []
            = lastTen (done ++ [turnExchange t]) := by
        rw [handleChat_store_accepted env store sid t hsid ht,
          storeGet_storeSet_self]
        simp only [Option.getD_some]
        rw [hinv, appendExchange_lastTen]
      have hrec := ih (handleChat env store ⟨some t.message, some sid, none⟩
          t.retrieval t.model t.now).store (done ++ [turnExchange t]) hts hstep
      rw [runTurns]
      simpa [List.append_assoc] using hrec

/-- C1: starting from a session with no stored history, after any sequence
of N accepted chat turns the stored conversation history is exactly the
last ten (or all N) recorded {user, assistant} exchanges in chronological
oldest-first order, so its length is min(N, 10); and the append step,
applied to a full window of 10, discards exactly the oldest entry. -/
theorem chat_history_window (env : Env) (store : Store) (sid : String)
    (turns : List TurnIO) (hsid : sid ≠ "")
    (hacc : ∀ t ∈ turns, acceptedTurn env t = true)
    (hfresh : (storeGet store sid).getD [] = []) :
    (storeGet (runTurns env store sid turns) sid).getD []
      = lastTen (turns.map turnExchange) ∧
    ((storeGet (runTurns env store sid turns) sid).getD []).length
      = min turns.length 10 ∧
    (∀ (h : History) (e : Exchange), h.length = 10 →
      appendExchange h e = h.drop 1 ++ [e]) := by
  have hmain := runTurns_history env sid hsid turns store [] hacc
    (by simpa [lastTen] using hfresh)
  have hmain2 : (storeGet (runTurns env store sid turns) sid).getD []
      = lastTen (turns.map turnExchange) := by simpa using hmain
  refine ⟨hmain2, ?_, ?_⟩
  · rw [hmain2, lastTen_length, List.length_map]
  · intro h e hlen
    rw [appendExchange_eq,
      if_pos (by simp [List.length_append, hlen])]
    have hone : (h ++ [e]).length - 10 = 1 := by
      simp [List.length_append, hlen]
    rw [hone, List.drop_append_of_le_length (by omega : 1 ≤ h.length)]

/-- Eleven accepted turns on one session, each retrieving substantial
context and getting a successful model answer. -/
def elevenTurns : List TurnIO :=
  [⟨"q01", .success (some "Section 420 IPC deals with cheating."), .success "a01" none, 1⟩,
   ⟨"q02", .success (some "Section 420 IPC deals with cheating."), .success "a02" none, 2⟩,
   ⟨"q03", .success (some "Section 420 IPC deals with cheating."), .success "a03" none, 3⟩,
   ⟨"q04", .success (some "Section 420 IPC deals with cheating."), .success "a04" none, 4⟩,
   ⟨"q05", .success (some "Section 420 IPC deals with cheating."), .success "a05" none, 5⟩,
   ⟨"q06", .success (some "Section 420 IPC deals with cheating."), .success "a06" none, 6⟩,
   ⟨"q07", .success (some "Section 420 IPC deals with cheating."), .success "a07" none, 7⟩,
   ⟨"q08", .success (some "Section 420 IPC deals with cheating."), .success "a08" none, 8⟩,
   ⟨"q09", .success (some "Section 420 IPC deals with cheating."), .success "a09" none, 9⟩,
   ⟨"q10", .success (some "Section 420 IPC deals with cheating."), .success "a10" none, 10⟩,
   ⟨"q11", .success (some "Section 420 IPC deals with cheating."), .success "a11" none, 11⟩]

theorem chat_history_window_witness :
    (storeGet (runTurns ⟨some "http://rag"⟩ [] "s1" elevenTurns) "s1").getD []
      = lastTen (elevenTurns.map turnExchange) ∧
    ((storeGet (runTurns ⟨some "http://rag"⟩ [] "s1" elevenTurns) "s1").getD
        []).length
      = min elevenTurns.length 10 :=
  ⟨(chat_history_window ⟨some "http://rag"⟩ [] "s1" elevenTurns (by decide)
      (by decide) rfl).1,
    (chat_history_window ⟨some "http://rag"⟩ [] "s1" elevenTurns (by decide)
      (by decide) rfl).2.1⟩

/-- C2: a chat request with a valid message whose retrieved context is the
empty string short-circuits before the model: the response is the canned
refusal (HTTP 200), no model request is built or issued, and the
conversation store is left exactly as it was. -/
theorem chat_empty_context_short_circuit
    (env : Env) (store : Store) (req : ChatRequest)
    (ro : RetrievalOutcome) (mo : ModelOutcome) (now : Nat) (m : String)
    (hm : req.message = some m) (hmv : jsTrim m ≠ "")
    (hctx : (retrieveContext env.ragUrl ro).1 = "") :
    (handleChat env store req ro mo now).response = some refusalText ∧
    (handleChat env store req ro mo now).status = 200 ∧
    (handleChat env store req ro mo now).modelCalled = false ∧
    (handleChat env store req ro mo now).modelRequest = none ∧
    (handleChat env store req ro mo now).store = store := by
  have hct : jsTrim (retrieveContext env.ragUrl ro).1 = "" := by rw [hctx]; rfl
  simp [handleChat, hm, hmv, hct]

theorem chat_empty_context_short_circuit_witness :
    (handleChat ⟨some "http://rag"⟩ [("s1", [⟨"u", "a"⟩])]
        ⟨some "What is Section 420?", some "s1", none⟩
        (.success (some "")) (.success "resp" none) 0).response
      = some refusalText ∧
    (handleChat ⟨some "http://rag"⟩ [("s1", [⟨"u", "a"⟩])]
        ⟨some "What is Section 420?", some "s1", none⟩
        (.success (some "")) (.success "resp" none) 0).status = 200 ∧
    (handleChat ⟨some "http://rag"⟩ [("s1", [⟨"u", "a"⟩])]
        ⟨some "What is Section 420?", some "s1", none⟩
        (.success (some "")) (.success "resp" none) 0).modelCalled = false ∧
    (handleChat ⟨some "http://rag"⟩ [("s1", [⟨"u", "a"⟩])]
        ⟨some "What is Section 420?", some "s1", none⟩
        (.success (some "")) (.success "resp" none) 0).modelRequest = none ∧
    (handleChat ⟨some "http://rag"⟩ [("s1", [⟨"u", "a"⟩])]
        ⟨some "What is Section 420?", some "s1", none⟩
        (.success (some "")) (.success "resp" none) 0).store
      = [("s1", [⟨"u", "a"⟩])] :=
  chat_empty_context_short_circuit ⟨some "http://rag"⟩ [("s1", [⟨"u", "a"⟩])]
    ⟨some "What is Section 420?", some "s1", none⟩
    (.success (some "")) (.success "resp" none) 0 "What is Section 420?"
    rfl (by decide) rfl

/-- C5: when the downstream model call fails (non-success status,
connection failure, or the 60-second timeout — all surfaced as a thrown
axios error), the chat handler responds 500 with the generation-failure
error and the session history in the store is unchanged: the exchange
whose assistant side never arrived is not recorded. -/
theorem chat_model_failure_500
    (env : Env) (store : Store) (req : ChatRequest)
    (ro : RetrievalOutcome) (now : Nat) (m emsg : String)
    (hm : req.message = some m) (hmv : jsTrim m ≠ "")
    (hctx : jsTrim (retrieveContext env.ragUrl ro).1 ≠ "") :
    (handleChat env store req ro (.failure emsg) now).status = 500 ∧
    (handleChat env store req ro (.failure emsg) now).error
      = some "Failed to generate response" ∧
    (handleChat env store req ro (.failure emsg) now).response = none ∧
    (handleChat env store req ro (.failure emsg) now).store = store := by
  simp [handleChat, hm, hmv, hctx]

theorem chat_model_failure_500_witness :
    (handleChat ⟨some "http://rag"⟩ [("s1", [⟨"u", "a"⟩])]
        ⟨some "What is Section 420?", some "s1", none⟩
        (.success (some "Section 420 IPC deals with cheating."))
        (.failure "timeout of 60000ms exceeded") 0).status = 500 ∧
    (handleChat ⟨some "http://rag"⟩ [("s1", [⟨"u", "a"⟩])]
        ⟨some "What is Section 420?", some "s1", none⟩
        (.success (some "Section 420 IPC deals with cheating."))
        (.failure "timeout of 60000ms exceeded") 0).error
      = some "Failed to generate response" ∧
    (handleChat ⟨some "http://rag"⟩ [("s1", [⟨"u", "a"⟩])]
        ⟨some "What is Section 420?", some "s1", none⟩
        (.success (some "Section 420 IPC deals with cheating."))
        (.failure "timeout of 60000ms exceeded") 0).response = none ∧
    (handleChat ⟨some "http://rag"⟩ [("s1", [⟨"u", "a"⟩])]
        ⟨some "What is Section 420?", some "s1", none⟩
        (.success (some "Section 420 IPC deals with cheating."))
        (.failure "timeout of 60000ms exceeded") 0).store
      = [("s1", [⟨"u", "a"⟩])] :=
  chat_model_failure_500 ⟨some "http://rag"⟩ [("s1", [⟨"u", "a"⟩])]
    ⟨some "What is Section 420?", some "s1", none⟩
    (.success (some "Section 420 IPC deals with cheating.")) 0
    "What is Section 420?" "timeout of 60000ms exceeded"
    rfl (by decide) (by decide)

/-- C6: a chat request whose message is missing or blank (whitespace-only)
is rejected with 400 and the message-required error; no model request is
built and the conversation store is untouched. -/
theorem chat_blank_message_rejected
    (env : Env) (store : Store) (req : ChatRequest)
    (ro : RetrievalOutcome) (mo : ModelOutcome) (now : Nat)
    (hm : req.message = none ∨ ∃ m, req.message = some m ∧ jsTrim m = "") :
    (handleChat env store req ro mo now).status = 400 ∧
    (handleChat env store req ro mo now).error = some "Message is required" ∧
    (handleChat env store req ro mo now).modelCalled = false ∧
    (handleChat env store req ro mo now).modelRequest = none ∧
    (handleChat env store req ro mo now).store = store := by
  rcases hm with hm | ⟨m, hm, hblank⟩ <;> simp [handleChat, hm]
  simp [hblank]

theorem chat_blank_message_rejected_witness :
    (handleChat ⟨some "http://rag"⟩ [("s1", [⟨"u", "a"⟩])]
        ⟨some "   ", some "s1", none⟩ (.success (some "ctx"))
        (.success "resp" none) 0).status = 400 ∧
    (handleChat ⟨some "http://rag"⟩ [("s1", [⟨"u", "a"⟩])]
        ⟨some "   ", some "s1", none⟩ (.success (some "ctx"))
        (.success "resp" none) 0).error = some "Message is required" ∧
    (handleChat ⟨some "http://rag"⟩ [("s1", [⟨"u", "a"⟩])]
        ⟨some "   ", some "s1", none⟩ (.success (some "ctx"))
        (.success "resp" none) 0).modelCalled = false ∧
    (handleChat ⟨some "http://rag"⟩ [("s1", [⟨"u", "a"⟩])]
        ⟨some "   ", some "s1", none⟩ (.success (some "ctx"))
        (.success "resp" none) 0).modelRequest = none ∧
    (handleChat ⟨some "http://rag"⟩ [("s1", [⟨"u", "a"⟩])]
        ⟨some "   ", some "s1", none⟩ (.success (some "ctx"))
        (.success "resp" none) 0).store = [("s1", [⟨"u", "a"⟩])] :=
  chat_blank_message_rejected ⟨some "http://rag"⟩ [("s1", [⟨"u", "a"⟩])]
    ⟨some "   ", some "s1", none⟩ (.success (some "ctx"))
    (.success "resp" none) 0 (Or.inr ⟨"   ", rfl, by decide⟩)

/-- C10: for a valid (non-blank-message) chat request, whenever the
retrieval service is unconfigured (URL unset or empty), or the retrieval
call fails, or the retrieved context is whitespace-only, the handler
responds 200 with exactly the fixed refusal text, never calls the model,
and leaves the conversation store unchanged. -/
theorem chat_degraded_retrieval_refusal
    (env : Env) (store : Store) (req : ChatRequest)
    (ro : RetrievalOutcome) (mo : ModelOutcome) (now : Nat) (m : String)
    (hm : req.message = some m) (hmv : jsTrim m ≠ "")
    (hdeg : env.ragUrl = none ∨ env.ragUrl = some "" ∨ ro = .failure ∨
      jsTrim (retrieveContext env.ragUrl ro).1 = "") :
    (handleChat env store req ro mo now).status = 200 ∧
    (handleChat env store req ro mo now).response
      = some "I don\x27t have enough information under Indian law to answer this question." ∧
    (handleChat env store req ro mo now).modelCalled = false ∧
    (handleChat env store req ro mo now).modelRequest = none ∧
    (handleChat env store req ro mo now).store = store := by
  have hctx : jsTrim (retrieveContext env.ragUrl ro).1 = "" := by
    rcases hdeg with h | h | h | h
    · rw [h]; rfl
    · rw [h]; rfl
    · subst h
      rcases henv : env.ragUrl with _ | u
      · rfl
      · by_cases hu : u = "" <;> simp [retrieveContext, hu] <;> rfl
    · exact h
  simp [handleChat, hm, hmv, hctx, refusalText]

theorem chat_degraded_retrieval_refusal_witness :
    (handleChat ⟨none⟩ [("s1", [⟨"u", "a"⟩])]
        ⟨some "What is Section 420?", some "s1", none⟩
        .failure (.success "resp" none) 0).status = 200 ∧
    (handleChat ⟨none⟩ [("s1", [⟨"u", "a"⟩])]
        ⟨some "What is Section 420?", some "s1", none⟩
        .failure (.success "resp" none) 0).response
      = some "I don\x27t have enough information under Indian law to answer this question." ∧
    (handleChat ⟨none⟩ [("s1", [⟨"u", "a"⟩])]
        ⟨some "What is Section 420?", some "s1", none⟩
        .failure (.success "resp" none) 0).modelCalled = false ∧
    (handleChat ⟨none⟩ [("s1", [⟨"u", "a"⟩])]
        ⟨some "What is Section 420?", some "s1", none⟩
        .failure (.success "resp" none) 0).modelRequest = none ∧
    (handleChat ⟨none⟩ [("s1", [⟨"u", "a"⟩])]
        ⟨some "What is Section 420?", some "s1", none⟩
        .failure (.success "resp" none) 0).store = [("s1", [⟨"u", "a"⟩])] :=
  chat_degraded_retrieval_refusal ⟨none⟩ [("s1", [⟨"u", "a"⟩])]
    ⟨some "What is Section 420?", some "s1", none⟩
    .failure (.success "resp" none) 0 "What is Section 420?"
    rfl (by decide) (Or.inl rfl)

/-- C3 counterexample: on a valid request whose retrieved context is
whitespace-only — below any substantiality threshold — no
fallback/general-knowledge template is selected for a prompt: the handler
builds no model request at all and answers with the canned refusal.  (The
program has a single template, `buildRagPrompt`; below-threshold context
short-circuits instead of selecting a second template.) -/
theorem below_threshold_no_fallback_template_cex :
    (handleChat ⟨some "http://rag"⟩ []
        ⟨some "What is Section 420?", some "s1", none⟩
        (.success (some "   ")) (.success "resp" none) 0).modelRequest
      = none ∧
    (handleChat ⟨some "http://rag"⟩ []
        ⟨some "What is Section 420?", some "s1", none⟩
        (.success (some "   ")) (.success "resp" none) 0).modelCalled
      = false ∧
    (handleChat ⟨some "http://rag"⟩ []
        ⟨some "What is Section 420?", some "s1", none⟩
        (.success (some "   ")) (.success "resp" none) 0).response
      = some refusalText := by
  decide

/-- C3 (amended): the program has exactly one prompt template, the
strict/context-grounded one.  For a valid chat request: if the trimmed
retrieved context is empty (the effective threshold is
whitespace-emptiness), the handler builds no prompt and returns the canned
refusal; otherwise the model request's message is the strict template
filled with the context and the trimmed question — and that template
embeds the instruction to answer only from the provided context.  There is
no fallback/general-knowledge template. -/
theorem single_strict_template
    (env : Env) (store : Store) (req : ChatRequest)
    (ro : RetrievalOutcome) (mo : ModelOutcome) (now : Nat) (m : String)
    (hm : req.message = some m) (hmv : jsTrim m ≠ "") :
    (jsTrim (retrieveContext env.ragUrl ro).1 = "" →
      (handleChat env store req ro mo now).modelRequest = none ∧
      (handleChat env store req ro mo now).response = some refusalText) ∧
    (jsTrim (retrieveContext env.ragUrl ro).1 ≠ "" →
      (handleChat env store req ro mo now).modelRequest.map ModelRequest.message
        = some (buildRagPrompt (retrieveContext env.ragUrl ro).1 (jsTrim m))) ∧
    listContains strictInstruction.data SYSTEM_PROMPT.data = true := by
  refine ⟨?_, ?_, by decide⟩
  · intro hctx
    simp [handleChat, hm, hmv, hctx]
  · intro hctx
    cases mo <;> simp [handleChat, hm, hmv, hctx]

theorem single_strict_template_witness :
    (handleChat ⟨some "http://rag"⟩ []
        ⟨some "What is Section 420?", some "s1", none⟩
        (.success (some "Section 420 IPC deals with cheating."))
        (.success "resp" none) 0).modelRequest.map ModelRequest.message
      = some (buildRagPrompt "Section 420 IPC deals with cheating."
          (jsTrim "What is Section 420?")) ∧
    listContains strictInstruction.data SYSTEM_PROMPT.data = true :=
  ⟨(single_strict_template ⟨some "http://rag"⟩ []
      ⟨some "What is Section 420?", some "s1", none⟩
      (.success (some "Section 420 IPC deals with cheating."))
      (.success "resp" none) 0 "What is Section 420?" rfl
      (by decide)).2.1 (by decide),
    (single_strict_template ⟨some "http://rag"⟩ []
      ⟨some "What is Section 420?", some "s1", none⟩
      (.success (some "Section 420 IPC deals with cheating."))
      (.success "resp" none) 0 "What is Section 420?" rfl
      (by decide)).2.2⟩

/-- C7 counterexample: a chat request supplying
`options = {maxLength: 100, temperature: 0.9, topP: 0.5}` still produces a
model request with `max_length = 400` — the caller-supplied value does not
override the default, so the claim is false. -/
theorem chat_options_ignored_cex :
    ((handleChat ⟨some "http://rag"⟩ []
        ⟨some "What is Section 420?", some "s1",
          some ⟨some 100, some 0.9, some 0.5⟩⟩
        (.success (some "Section 420 IPC deals with cheating."))
        (.success "resp" none) 0).modelRequest.map ModelRequest.max_length
      = some 400) ∧ (400 : Nat) ≠ 100 :=
  ⟨rfl, by decide⟩

/-- C7 (amended): the `options` field of the request body is ignored by
both endpoints; every model request the chat handler builds carries the
fixed parameters max_length 400, temperature 0.2, top_p 0.9,
repetition_penalty 1.1, and every model request the generate handler
builds carries max_length 512, temperature 0.7, top_p 0.9 and no
repetition penalty — regardless of caller-supplied options. -/
theorem generation_parameters_fixed
    (env : Env) (store : Store) (req : ChatRequest) (ro : RetrievalOutcome)
    (mo : ModelOutcome) (now : Nat) (greq : GenRequest) (gmo : ModelOutcome) :
    (∀ mr, (handleChat env store req ro mo now).modelRequest = some mr →
      mr.max_length = 400 ∧ mr.temperature = 0.2 ∧ mr.top_p = 0.9 ∧
        mr.repetition_penalty = some 1.1) ∧
    (∀ mr, (handleGenerate greq gmo).modelRequest = some mr →
      mr.max_length = 512 ∧ mr.temperature = 0.7 ∧ mr.top_p = 0.9 ∧
        mr.repetition_penalty = none) := by
  constructor
  · intro mr hmr
    rcases hq : req.message with _ | m
    · simp [handleChat, hq] at hmr
    · by_cases hb : jsTrim m = ""
      · simp [handleChat, hq, hb] at hmr
      · by_cases hc : jsTrim (retrieveContext env.ragUrl ro).1 = ""
        · simp [handleChat, hq, hb, hc] at hmr
        · cases mo <;> simp [handleChat, hq, hb, hc] at hmr <;>
            simp [← hmr]
  · intro mr hmr
    rcases hq : greq.prompt with _ | p
    · simp [handleGenerate, hq] at hmr
    · by_cases hb : jsTrim p = ""
      · simp [handleGenerate, hq, hb] at hmr
      · cases gmo <;> simp [handleGenerate, hq, hb] at hmr <;>
          simp [← hmr]

theorem generation_parameters_fixed_witness :
    (({ message := buildRagPrompt "Section 420 IPC deals with cheating."
          (jsTrim "What is Section 420?"),
        max_length := 400, temperature := 0.2, top_p := 0.9,
        repetition_penalty := some 1.1,
        conversation_history := some [] } : ModelRequest).max_length = 400 ∧
      ({ message := buildRagPrompt "Section 420 IPC deals with cheating."
            (jsTrim "What is Section 420?"),
          max_length := 400, temperature := 0.2, top_p := 0.9,
          repetition_penalty := some 1.1,
          conversation_history := some [] } : ModelRequest).temperature = 0.2 ∧
      ({ message := buildRagPrompt "Section 420 IPC deals with cheating."
            (jsTrim "What is Section 420?"),
          max_length := 400, temperature := 0.2, top_p := 0.9,
          repetition_penalty := some 1.1,
          conversation_history := some [] } : ModelRequest).top_p = 0.9 ∧
      ({ message := buildRagPrompt "Section 420 IPC deals with cheating."
            (jsTrim "What is Section 420?"),
          max_length := 400, temperature := 0.2, top_p := 0.9,
          repetition_penalty := some 1.1,
          conversation_history := some [] } : ModelRequest).repetition_penalty
        = some 1.1) ∧
    (({ message := jsTrim "Write a poem", max_length := 512,
        temperature := 0.7, top_p := 0.9, repetition_penalty := none,
        conversation_history := none } : ModelRequest).max_length = 512 ∧
      ({ message := jsTrim "Write a poem", max_length := 512,
          temperature := 0.7, top_p := 0.9, repetition_penalty := none,
          conversation_history := none } : ModelRequest).temperature = 0.7 ∧
      ({ message := jsTrim "Write a poem", max_length := 512,
          temperature := 0.7, top_p := 0.9, repetition_penalty := none,
          conversation_history := none } : ModelRequest).top_p = 0.9 ∧
      ({ message := jsTrim "Write a poem", max_length := 512,
          temperature := 0.7, top_p := 0.9, repetition_penalty := none,
          conversation_history := none } : ModelRequest).repetition_penalty
        = none) :=
  ⟨(generation_parameters_fixed ⟨some "http://rag"⟩ []
      ⟨some "What is Section 420?", some "s1",
        some ⟨some 100, some 0.9, some 0.5⟩⟩
      (.success (some "Section 420 IPC deals with cheating."))
      (.success "resp" none) 0
      ⟨some "Write a poem", some ⟨some 100, some 0.9, some 0.5⟩⟩
      (.success "r" none)).1 _ rfl,
    (generation_parameters_fixed ⟨some "http://rag"⟩ []
      ⟨some "What is Section 420?", some "s1",
        some ⟨some 100, some 0.9, some 0.5⟩⟩
      (.success (some "Section 420 IPC deals with cheating."))
      (.success "resp" none) 0
      ⟨some "Write a poem", some ⟨some 100, some 0.9, some 0.5⟩⟩
      (.success "r" none)).2 _ rfl⟩

theorem delete_then_get_empty_witness :
    (handleGetHistory
        (handleDelete [("s1", [⟨"u", "a"⟩])] "s1").1 "s1").2 = [] ∧
    handleDelete [] "s1" = ([], [("message", "Conversation cleared")]) :=
  ⟨(delete_then_get_empty [("s1", [⟨"u", "a"⟩])] "s1").1,
    (delete_then_get_empty [] "s1").2.2.2 rfl⟩

end Backend
